import Mathlib

/-!
Verification of the leave-notification bot in src/main.py.

The source defines a class TelegramLeaveBot with the handler methods
handle_member_left, handle_new_member, handle_start_command and
handle_callback_query, plus setup_handlers and start_bot.  Handlers
perform outbound API calls (send_message, answer, edit_message_text)
and mutate no attribute of the object or any module-level state.
Exceptions raised by an API call are modelled by a non-sent outcome;
each handler wraps its body in a try/except, so in the model a code
path that would raise simply stops producing further calls.

We embed each handler as a pure function from an update to the list of
attempted outbound calls, parameterised by an oracle giving the outcome
of each call (success = no exception; any exception is a failure).
-/

namespace LeaveBot

/-- telegram.constants.ChatMemberStatus values used by the source. -/
inductive ChatMemberStatus
  | owner
  | administrator
  | member
  | restricted
  | left
  | banned
deriving DecidableEq, Repr

/-- A Telegram user as the source reads it: id, is_bot, first_name, username. -/
structure TgUser where
  id : Int
  isBot : Bool
  firstName : String
  username : Option String
deriving DecidableEq, Repr

/-- The message fields the handlers read: left_chat_member, new_chat_members,
and whether the message text matches the CommandHandler filter for /start. -/
structure TgMessage where
  leftChatMember : Option TgUser
  newChatMembers : List TgUser
  isStartCommand : Bool
deriving DecidableEq, Repr

/-- update.chat_member: old_chat_member.status, new_chat_member.status,
new_chat_member.user. -/
structure ChatMemberUpdated where
  oldStatus : ChatMemberStatus
  newStatus : ChatMemberStatus
  user : TgUser
deriving DecidableEq, Repr

/-- update.callback_query: data and from_user. -/
structure TgCallbackQuery where
  data : Option String
  fromUser : TgUser
deriving DecidableEq, Repr

/-- A raw telegram Update, restricted to the fields the source reads.
effectiveChatId is none when update.effective_chat is None (attribute
access on it then raises, which the outer except of each handler catches). -/
structure TgUpdate where
  effectiveChatId : Option Int
  effectiveUser : Option TgUser
  message : Option TgMessage
  chatMember : Option ChatMemberUpdated
  callbackQuery : Option TgCallbackQuery
deriving DecidableEq, Repr

/-- The distinct message contents the source sends, abstracted from the
literal f-string texts: which template, and which user data it embeds. -/
inductive Mention
  | byUsername (u : String)
  | byName (n : String)
deriving DecidableEq, Repr

inductive MsgContent
  | leaveFeedbackRequest (firstName : String)
  | groupFallbackMention (m : Mention)
  | welcomeInvite (firstName : String)
  | startReply (firstName : String)
deriving DecidableEq, Repr

/-- The outbound API operations the handlers perform. -/
inductive SendOp
  | sendMessage (chatId : Int) (content : MsgContent)
  | answerCallbackQuery
  | editMessageText (firstName : String)
deriving DecidableEq, Repr

/-- Outcome of one API call.  The source distinguishes only success
(no exception) from exception; the spec refines exceptions into
Rejected (permanent refusal) and Error (transient), both of which the
code treats identically via except-clauses. -/
inductive SendOutcome
  | sent
  | rejected
  | error
deriving DecidableEq, Repr

def SendOutcome.isFailure : SendOutcome → Bool
  | .sent => false
  | .rejected => true
  | .error => true

/-- One attempted call together with its outcome. -/
structure Attempt where
  op : SendOp
  outcome : SendOutcome
deriving DecidableEq, Repr

/-- An oracle fixing the outcome of each outbound call. -/
def SendOracle : Type := SendOp → SendOutcome

/-- The private feedback request sent to the departed member
(context.bot.send_message with chat_id=left_member.id). -/
def leaveDirectOp (u : TgUser) : SendOp :=
  SendOp.sendMessage u.id (MsgContent.leaveFeedbackRequest u.firstName)

/-- Line 75 of the source: mention by @username when present, else by
first_name. -/
def mentionOf (u : TgUser) : Mention :=
  match u.username with
  | some un => Mention.byUsername un
  | none => Mention.byName u.firstName

/-- The fallback group mention (send_message with chat_id=self.group_chat_id). -/
def leaveFallbackOp (g : Int) (u : TgUser) : SendOp :=
  SendOp.sendMessage g (MsgContent.groupFallbackMention (mentionOf u))

/-- The welcome message for a new member, sent to the group. -/
def welcomeOp (g : Int) (u : TgUser) : SendOp :=
  SendOp.sendMessage g (MsgContent.welcomeInvite u.firstName)

/-- The reply_text answer to /start, sent into the chat the command came from. -/
def startReplyOp (chatId : Int) (u : TgUser) : SendOp :=
  SendOp.sendMessage chatId (MsgContent.startReply u.firstName)

/-- TelegramLeaveBot.handle_member_left (src/main.py lines 42-89).
Guard on the monitored group, then on message.left_chat_member, skip bots,
try the direct send; on any exception from it, send the group fallback
inside its own try/except (a failing fallback is only logged). -/
def handle_member_left (g : Int) (oracle : SendOracle) (u : TgUpdate) : List Attempt :=
  match u.effectiveChatId with
  | none => []
  | some cid =>
    if cid ≠ g then []
    else
      match u.message with
      | none => []
      | some m =>
        match m.leftChatMember with
        | none => []
        | some lm =>
          if lm.isBot then []
          else
            let o1 := oracle (leaveDirectOp lm)
            if o1 = SendOutcome.sent then
              [⟨leaveDirectOp lm, o1⟩]
            else
              let fb := leaveFallbackOp g lm
              [⟨leaveDirectOp lm, o1⟩, ⟨fb, oracle fb⟩]

/-- The per-member loop body of handle_new_member: bots are skipped with
continue; for each non-bot new member a welcome message is attempted, its
failure caught by the inner try/except so the loop continues. -/
def welcomeLoop (g : Int) (oracle : SendOracle) : List TgUser → List Attempt
  | [] => []
  | nm :: rest =>
    if nm.isBot then welcomeLoop g oracle rest
    else ⟨welcomeOp g nm, oracle (welcomeOp g nm)⟩ :: welcomeLoop g oracle rest

/-- TelegramLeaveBot.handle_new_member (src/main.py lines 91-128). -/
def handle_new_member (g : Int) (oracle : SendOracle) (u : TgUpdate) : List Attempt :=
  match u.effectiveChatId with
  | none => []
  | some cid =>
    if cid ≠ g then []
    else
      match u.message with
      | none => []
      | some m => welcomeLoop g oracle m.newChatMembers

/-- TelegramLeaveBot.handle_start_command (src/main.py lines 130-145).
Reads update.effective_user (None raises, caught), then replies to the
message (a None message raises, caught).  No state is recorded. -/
def handle_start_command (oracle : SendOracle) (u : TgUpdate) : List Attempt :=
  match u.effectiveUser with
  | none => []
  | some usr =>
    match u.message, u.effectiveChatId with
    | some _, some cid => [⟨startReplyOp cid usr, oracle (startReplyOp cid usr)⟩]
    | _, _ => []

/-- First part of handle_callback_query (src/main.py lines 149-166):
query.answer() on a None callback_query raises (caught); a failing answer
aborts the rest of the first try block; edit_message_text only on
data == start_chat. -/
def callbackPart1 (oracle : SendOracle) (u : TgUpdate) : List Attempt :=
  match u.callbackQuery with
  | none => []
  | some q =>
    let ans : Attempt := ⟨SendOp.answerCallbackQuery, oracle SendOp.answerCallbackQuery⟩
    if (oracle SendOp.answerCallbackQuery).isFailure then [ans]
    else if q.data = some "start_chat" then
      ans :: [⟨SendOp.editMessageText q.fromUser.firstName, oracle (SendOp.editMessageText q.fromUser.firstName)⟩]
    else [ans]

/-- Lines 177-178 of the source: old status in
[MEMBER, ADMINISTRATOR, OWNER] and new status in [LEFT, BANNED]. -/
def isLeaveTransition (o n : ChatMemberStatus) : Bool :=
  (o == ChatMemberStatus.member || o == ChatMemberStatus.administrator || o == ChatMemberStatus.owner)
  && (n == ChatMemberStatus.left || n == ChatMemberStatus.banned)

/-- The orphaned chat-member-transition logic (src/main.py lines 167-213),
which executes after the except clause inside handle_callback_query:
return if update.chat_member is None or the chat is not the monitored
group; on a leave transition of a non-bot user, attempt the direct send
and on its failure the group fallback, exactly as handle_member_left. -/
def memberTransitionPart (g : Int) (oracle : SendOracle) (u : TgUpdate) : List Attempt :=
  match u.chatMember with
  | none => []
  | some cm =>
    match u.effectiveChatId with
    | none => []
    | some cid =>
      if cid ≠ g then []
      else if isLeaveTransition cm.oldStatus cm.newStatus then
        if cm.user.isBot then []
        else
          let o1 := oracle (leaveDirectOp cm.user)
          if o1 = SendOutcome.sent then
            [⟨leaveDirectOp cm.user, o1⟩]
          else
            let fb := leaveFallbackOp g cm.user
            [⟨leaveDirectOp cm.user, o1⟩, ⟨fb, oracle fb⟩]
      else []

/-- TelegramLeaveBot.handle_callback_query (src/main.py lines 147-213):
the callback-answering try/except followed, in the same method body, by
the orphaned transition logic. -/
def handle_callback_query (g : Int) (oracle : SendOracle) (u : TgUpdate) : List Attempt :=
  callbackPart1 oracle u ++ memberTransitionPart g oracle u

/-- The methods actually defined on class TelegramLeaveBot in src/main.py. -/
def telegramLeaveBotMethodNames : List String :=
  ["__init__", "handle_member_left", "handle_new_member",
   "handle_start_command", "handle_callback_query", "setup_handlers", "start_bot"]

/-- The kinds of handler registration setup_handlers performs, in order. -/
inductive HandlerKind
  | newMembersMsg
  | startCommand
  | callbackQuery
  | leftMemberMsg
  | chatMemberUpdate
deriving DecidableEq, Repr

structure Registration where
  kind : HandlerKind
  methodName : String
deriving DecidableEq, Repr

/-- The five add_handler calls of setup_handlers (src/main.py lines 215-240),
each naming the bound method it passes. -/
def setupCalls : List Registration :=
  [⟨HandlerKind.newMembersMsg, "handle_new_member"⟩,
   ⟨HandlerKind.startCommand, "handle_start_command"⟩,
   ⟨HandlerKind.callbackQuery, "handle_callback_query"⟩,
   ⟨HandlerKind.leftMemberMsg, "handle_member_left"⟩,
   ⟨HandlerKind.chatMemberUpdate, "handle_chat_member_update"⟩]

/-- Performing the add_handler calls in order.  Looking up self.NAME for a
name not defined on the class raises AttributeError: registration stops
there, keeping the registrations already made and reporting the bad name. -/
def addHandlers : List Registration → List Registration × Option String
  | [] => ([], none)
  | r :: rest =>
    if r.methodName ∈ telegramLeaveBotMethodNames then
      let res := addHandlers rest
      (r :: res.1, res.2)
    else ([], some r.methodName)

/-- TelegramLeaveBot.setup_handlers: the registrations that succeed and the
AttributeError name, if one is raised. -/
def setup_handlers : List Registration × Option String :=
  addHandlers setupCalls

/-- Which registered handler kind matches a given update (python-telegram-bot
dispatches an update to the first matching handler of group 0). -/
def matchesKind : HandlerKind → TgUpdate → Bool
  | HandlerKind.newMembersMsg, u =>
    match u.message with
    | some m => !m.newChatMembers.isEmpty
    | none => false
  | HandlerKind.startCommand, u =>
    match u.message with
    | some m => m.isStartCommand
    | none => false
  | HandlerKind.callbackQuery, u => u.callbackQuery.isSome
  | HandlerKind.leftMemberMsg, u =>
    match u.message with
    | some m => m.leftChatMember.isSome
    | none => false
  | HandlerKind.chatMemberUpdate, u => u.chatMember.isSome

/-- Invoking a bound handler method by name. -/
def invokeMethod (name : String) (g : Int) (oracle : SendOracle) (u : TgUpdate) : List Attempt :=
  if name = "handle_member_left" then handle_member_left g oracle u
  else if name = "handle_new_member" then handle_new_member g oracle u
  else if name = "handle_start_command" then handle_start_command oracle u
  else if name = "handle_callback_query" then handle_callback_query g oracle u
  else []

/-- One update processed by the program as shipped: if setup_handlers raised,
start_bot never reaches polling and no update is ever processed; otherwise
the first matching registered handler runs. -/
def systemStep (g : Int) (oracle : SendOracle) (u : TgUpdate) : List Attempt :=
  match setup_handlers.2 with
  | some _ => []
  | none =>
    match setup_handlers.1.find? (fun r => matchesKind r.kind u) with
    | some r => invokeMethod r.methodName g oracle u
    | none => []

/-- The update stream processed by the program as shipped. -/
def systemRun (g : Int) (oracle : SendOracle) (us : List TgUpdate) : List Attempt :=
  (us.map (systemStep g oracle)).flatten

/-- The object state of TelegramLeaveBot: the fields set in __init__.
No handler assigns any attribute and no module-level mutable state exists
besides logging. -/
structure BotState where
  botToken : String
  groupChatId : Int
deriving DecidableEq, Repr

/-- Processing one update: the handlers assign no attribute, so the state
returned is the input state. -/
def processUpdate (s : BotState) (oracle : SendOracle) (u : TgUpdate) : BotState × List Attempt :=
  (s, systemStep s.groupChatId oracle u)

/-- Processing a stream of updates, threading the object state. -/
def runBot (s : BotState) (oracle : SendOracle) : List TgUpdate → BotState × List Attempt
  | [] => (s, [])
  | u :: us =>
    let p := processUpdate s oracle u
    let q := runBot p.1 oracle us
    (q.1, p.2 ++ q.2)

/-- A dispatch sequence (AttemptDirect then possibly Fallback) begins with
exactly one direct feedback-request send; count those. -/
def isDirectLeave (a : Attempt) : Bool :=
  match a.op with
  | SendOp.sendMessage _ (MsgContent.leaveFeedbackRequest _) => true
  | _ => false

def isFallback (a : Attempt) : Bool :=
  match a.op with
  | SendOp.sendMessage _ (MsgContent.groupFallbackMention _) => true
  | _ => false

def dispatchSequences (l : List Attempt) : Nat := l.countP (fun a => isDirectLeave a)

def fallbackCount (l : List Attempt) : Nat := l.countP (fun a => isFallback a)

/-- Processing a stream through handle_member_left alone (the handler the
left-chat-member channel binds). -/
def runMemberLeft (g : Int) (oracle : SendOracle) (us : List TgUpdate) : List Attempt :=
  (us.map (handle_member_left g oracle)).flatten

/-- Concrete data for counterexamples and witnesses. -/
def alice : TgUser := ⟨1, false, "Alice", some "alice"⟩

def monitoredGroup : Int := -100

def mkStatusLeave (g : Int) (u : TgUser) : TgUpdate :=
  ⟨some g, none, some ⟨some u, [], false⟩, none, none⟩

def mkTransLeave (g : Int) (u : TgUser) : TgUpdate :=
  ⟨some g, none, none, some ⟨ChatMemberStatus.member, ChatMemberStatus.left, u⟩, none⟩

def sentOracle : SendOracle := fun _ => SendOutcome.sent

def failOracle : SendOracle := fun _ => SendOutcome.error

/-- A bot account, for bot-filter witnesses. -/
def robo : TgUser := ⟨2, true, "Robo", none⟩

/-- A bot state as __init__ builds it. -/
def botState0 : BotState := ⟨"token", monitoredGroup⟩

/-- A trivially-true enrollment reading, for the monotonicity witness. -/
def enrolledAll : BotState → Int → Bool := fun _ _ => true

/- ------------------------------------------------------------------
Helper lemmas.
------------------------------------------------------------------ -/

/-- On a left-chat-member update for the monitored group with a non-bot
member, handle_member_left performs the direct attempt and, exactly when
it fails, one fallback attempt. -/
theorem handle_member_left_run (g : Int) (oracle : SendOracle) (u : TgUpdate)
    (m : TgMessage) (lm : TgUser)
    (hc : u.effectiveChatId = some g) (hm : u.message = some m)
    (hl : m.leftChatMember = some lm) (hb : lm.isBot = false) :
    handle_member_left g oracle u =
      if oracle (leaveDirectOp lm) = SendOutcome.sent then
        [⟨leaveDirectOp lm, oracle (leaveDirectOp lm)⟩]
      else
        [⟨leaveDirectOp lm, oracle (leaveDirectOp lm)⟩,
         ⟨leaveFallbackOp g lm, oracle (leaveFallbackOp g lm)⟩] := by
  simp [handle_member_left, hc, hm, hl, hb]

/-- The transition logic on a leave transition of a non-bot user in the
monitored group likewise performs the direct attempt and, exactly when it
fails, one fallback attempt. -/
theorem memberTransitionPart_run (g : Int) (oracle : SendOracle) (u : TgUpdate)
    (cm : ChatMemberUpdated)
    (hcm : u.chatMember = some cm) (hc : u.effectiveChatId = some g)
    (ht : isLeaveTransition cm.oldStatus cm.newStatus = true)
    (hb : cm.user.isBot = false) :
    memberTransitionPart g oracle u =
      if oracle (leaveDirectOp cm.user) = SendOutcome.sent then
        [⟨leaveDirectOp cm.user, oracle (leaveDirectOp cm.user)⟩]
      else
        [⟨leaveDirectOp cm.user, oracle (leaveDirectOp cm.user)⟩,
         ⟨leaveFallbackOp g cm.user, oracle (leaveFallbackOp g cm.user)⟩] := by
  simp [memberTransitionPart, hcm, hc, ht, hb]

/-- The transition logic emits nothing for a bot account, on any path. -/
theorem memberTransitionPart_bot (g : Int) (oracle : SendOracle) (u : TgUpdate)
    (cm : ChatMemberUpdated)
    (hcm : u.chatMember = some cm) (hb : cm.user.isBot = true) :
    memberTransitionPart g oracle u = [] := by
  unfold memberTransitionPart
  rw [hcm]
  rcases hec : u.effectiveChatId with _ | cid
  · rfl
  · by_cases hg : cid = g
    · cases ht : isLeaveTransition cm.oldStatus cm.newStatus
      · simp [hg, ht]
      · simp [hg, ht, hb]
    · simp [hg]

/-- Because setup_handlers raises before polling starts, the shipped
program processes no update. -/
theorem systemStep_nil (g : Int) (oracle : SendOracle) (u : TgUpdate) :
    systemStep g oracle u = [] := rfl

/-- The shipped program produces no attempt on any update stream. -/
theorem systemRun_nil (g : Int) (oracle : SendOracle) (us : List TgUpdate) :
    systemRun g oracle us = [] := by
  induction us with
  | nil => rfl
  | cons u us ih =>
    have h1 : systemRun g oracle (u :: us) = systemStep g oracle u ++ systemRun g oracle us := rfl
    rw [h1, systemStep_nil, ih]
    rfl

/-- No handler assigns any attribute: the object state survives any update
stream unchanged. -/
theorem runBot_fst (s : BotState) (oracle : SendOracle) (us : List TgUpdate) :
    (runBot s oracle us).1 = s := by
  induction us with
  | nil => rfl
  | cons u us ih => simpa [runBot, processUpdate] using ih

/-- Counting dispatch-sequence starts in the two possible outcomes of one
departure handling. -/
theorem dispatchSequences_run (lm : TgUser) (g : Int) (o1 o2 : SendOutcome) :
    dispatchSequences [⟨leaveDirectOp lm, o1⟩] = 1
    ∧ dispatchSequences [⟨leaveDirectOp lm, o1⟩, ⟨leaveFallbackOp g lm, o2⟩] = 1 := by
  constructor <;>
    simp [dispatchSequences, isDirectLeave, leaveDirectOp, leaveFallbackOp, List.countP_cons]

/- ------------------------------------------------------------------
Claim theorems.
------------------------------------------------------------------ -/

/-- C1 counterexample: a departure of non-bot Alice reported through both
source channels (left-chat-member status message, then chat-member
transition update) yields ZERO dispatch sequences in the program as
shipped, not exactly one: setup_handlers raises AttributeError, so the
update stream is never processed. -/
theorem c1_counterexample :
    dispatchSequences (systemRun monitoredGroup sentOracle
      [mkStatusLeave monitoredGroup alice, mkTransLeave monitoredGroup alice]) = 0 := rfl

/-- C1 (amended): for a non-bot departure reported through both channels,
the shipped program executes zero dispatch sequences (setup_handlers
raises before polling starts); and the code holds no dedup ledger: each
channel handler code path, taken by itself, executes one full dispatch
sequence, so both channels together would execute two, never one. -/
theorem c1_amended_zero_and_no_dedup (g : Int) (oracle : SendOracle) (u : TgUser)
    (h : u.isBot = false) :
    systemRun g oracle [mkStatusLeave g u, mkTransLeave g u] = []
    ∧ dispatchSequences (handle_member_left g oracle (mkStatusLeave g u)) = 1
    ∧ dispatchSequences (memberTransitionPart g oracle (mkTransLeave g u)) = 1 := by
  refine ⟨systemRun_nil g oracle _, ?_, ?_⟩
  · rw [handle_member_left_run g oracle (mkStatusLeave g u) ⟨some u, [], false⟩ u rfl rfl rfl h]
    split
    · exact (dispatchSequences_run u g _ SendOutcome.sent).1
    · exact (dispatchSequences_run u g _ _).2
  · rw [memberTransitionPart_run g oracle (mkTransLeave g u)
      ⟨ChatMemberStatus.member, ChatMemberStatus.left, u⟩ rfl rfl rfl h]
    split
    · exact (dispatchSequences_run u g _ SendOutcome.sent).1
    · exact (dispatchSequences_run u g _ _).2

/-- C1 witness: the amended statement instantiated at Alice with an
all-successful oracle. -/
theorem c1_witness :
    systemRun monitoredGroup sentOracle
      [mkStatusLeave monitoredGroup alice, mkTransLeave monitoredGroup alice] = []
    ∧ dispatchSequences (handle_member_left monitoredGroup sentOracle
        (mkStatusLeave monitoredGroup alice)) = 1
    ∧ dispatchSequences (memberTransitionPart monitoredGroup sentOracle
        (mkTransLeave monitoredGroup alice)) = 1 :=
  c1_amended_zero_and_no_dedup monitoredGroup sentOracle alice (by decide)

/-- C2 counterexample: delivering the identical left-chat-member update for
Alice twice to its handler performs the direct send twice, while one
delivery performs it once; the two attempt lists differ, so the net effect
is not that of a single delivery. -/
theorem c2_counterexample :
    runMemberLeft monitoredGroup sentOracle
      [mkStatusLeave monitoredGroup alice, mkStatusLeave monitoredGroup alice]
      = [⟨leaveDirectOp alice, SendOutcome.sent⟩, ⟨leaveDirectOp alice, SendOutcome.sent⟩]
    ∧ runMemberLeft monitoredGroup sentOracle [mkStatusLeave monitoredGroup alice]
      = [⟨leaveDirectOp alice, SendOutcome.sent⟩]
    ∧ (runMemberLeft monitoredGroup sentOracle
        [mkStatusLeave monitoredGroup alice, mkStatusLeave monitoredGroup alice]
       == runMemberLeft monitoredGroup sentOracle [mkStatusLeave monitoredGroup alice]) = false := by
  refine ⟨rfl, rfl, rfl⟩

/-- C2 (amended): the handler keeps no dedup state and mutates nothing, so
re-delivering the identical update performs the dispatch again: the attempt
list for two deliveries is the single-delivery list self-appended, the
object state is the same in both runs, and whenever one delivery performs
any attempt at all the two net effects differ. -/
theorem c2_amended_not_idempotent (g : Int) (oracle : SendOracle) (u : TgUpdate) :
    runMemberLeft g oracle [u, u]
      = handle_member_left g oracle u ++ handle_member_left g oracle u
    ∧ (∀ s : BotState, (runBot s oracle [u, u]).1 = (runBot s oracle [u]).1)
    ∧ (handle_member_left g oracle u ≠ [] →
        runMemberLeft g oracle [u, u] ≠ runMemberLeft g oracle [u]) := by
  refine ⟨by simp [runMemberLeft], ?_, ?_⟩
  · intro s
    rw [runBot_fst, runBot_fst]
  · intro hne heq
    have h2 : runMemberLeft g oracle [u, u]
        = handle_member_left g oracle u ++ handle_member_left g oracle u := by
      simp [runMemberLeft]
    have h1 : runMemberLeft g oracle [u] = handle_member_left g oracle u := by
      simp [runMemberLeft]
    rw [h2, h1] at heq
    have hlen := congrArg List.length heq
    simp at hlen
    exact hne hlen

/-- C2 witness: the amended statement instantiated at Alice's status-message
departure with an all-successful oracle. -/
theorem c2_witness :
    runMemberLeft monitoredGroup sentOracle
      [mkStatusLeave monitoredGroup alice, mkStatusLeave monitoredGroup alice]
      = handle_member_left monitoredGroup sentOracle (mkStatusLeave monitoredGroup alice)
        ++ handle_member_left monitoredGroup sentOracle (mkStatusLeave monitoredGroup alice)
    ∧ runMemberLeft monitoredGroup sentOracle
        [mkStatusLeave monitoredGroup alice, mkStatusLeave monitoredGroup alice]
      ≠ runMemberLeft monitoredGroup sentOracle [mkStatusLeave monitoredGroup alice] :=
  ⟨(c2_amended_not_idempotent monitoredGroup sentOracle (mkStatusLeave monitoredGroup alice)).1,
   (c2_amended_not_idempotent monitoredGroup sentOracle (mkStatusLeave monitoredGroup alice)).2.2
     (by decide)⟩

/-- C3: for every non-bot user in the monitored group whose direct send
fails (any exception, covering Rejected and Error), the handling — on the
status-message path and on the transition path alike — performs exactly the
direct attempt followed by exactly one fallback group message, never
retried, and terminates with that list whatever the fallback outcome is
(the oracle value on the fallback op is unconstrained). -/
theorem c3_failed_direct_one_fallback (g : Int) (oracle : SendOracle) :
    (∀ (u : TgUpdate) (m : TgMessage) (lm : TgUser),
      u.effectiveChatId = some g → u.message = some m → m.leftChatMember = some lm →
      lm.isBot = false → oracle (leaveDirectOp lm) ≠ SendOutcome.sent →
      handle_member_left g oracle u =
        [⟨leaveDirectOp lm, oracle (leaveDirectOp lm)⟩,
         ⟨leaveFallbackOp g lm, oracle (leaveFallbackOp g lm)⟩]
      ∧ fallbackCount (handle_member_left g oracle u) = 1)
    ∧ (∀ (u : TgUpdate) (cm : ChatMemberUpdated),
      u.chatMember = some cm → u.effectiveChatId = some g →
      isLeaveTransition cm.oldStatus cm.newStatus = true → cm.user.isBot = false →
      oracle (leaveDirectOp cm.user) ≠ SendOutcome.sent →
      memberTransitionPart g oracle u =
        [⟨leaveDirectOp cm.user, oracle (leaveDirectOp cm.user)⟩,
         ⟨leaveFallbackOp g cm.user, oracle (leaveFallbackOp g cm.user)⟩]
      ∧ fallbackCount (memberTransitionPart g oracle u) = 1) := by
  constructor
  · intro u m lm hc hm hl hb hf
    have hrun := handle_member_left_run g oracle u m lm hc hm hl hb
    rw [if_neg hf] at hrun
    refine ⟨hrun, ?_⟩
    rw [hrun]
    simp [fallbackCount, isFallback, leaveDirectOp, leaveFallbackOp, List.countP_cons]
  · intro u cm hcm hc ht hb hf
    have hrun := memberTransitionPart_run g oracle u cm hcm hc ht hb
    rw [if_neg hf] at hrun
    refine ⟨hrun, ?_⟩
    rw [hrun]
    simp [fallbackCount, isFallback, leaveDirectOp, leaveFallbackOp, List.countP_cons]

/-- C3 witness: Alice leaves, every send fails; exactly one fallback is
attempted on each channel path. -/
theorem c3_witness :
    fallbackCount (handle_member_left monitoredGroup failOracle
      (mkStatusLeave monitoredGroup alice)) = 1
    ∧ fallbackCount (memberTransitionPart monitoredGroup failOracle
      (mkTransLeave monitoredGroup alice)) = 1 :=
  ⟨((c3_failed_direct_one_fallback monitoredGroup failOracle).1
      (mkStatusLeave monitoredGroup alice) ⟨some alice, [], false⟩ alice
      rfl rfl rfl rfl (by decide)).2,
   ((c3_failed_direct_one_fallback monitoredGroup failOracle).2
      (mkTransLeave monitoredGroup alice)
      ⟨ChatMemberStatus.member, ChatMemberStatus.left, alice⟩
      rfl rfl rfl rfl (by decide)).2⟩

/-- C4: for every user whose direct send succeeds, the handling stops at the
single direct attempt and no fallback group message is sent — on either
channel path.  This holds for every user, in particular for any user the
spec regards as having hasDirectChannel = true at departure time (the code
stores no enrollment state and attempts the direct send for everyone). -/
theorem c4_sent_direct_no_fallback (g : Int) (oracle : SendOracle) :
    (∀ (u : TgUpdate) (m : TgMessage) (lm : TgUser),
      u.effectiveChatId = some g → u.message = some m → m.leftChatMember = some lm →
      lm.isBot = false → oracle (leaveDirectOp lm) = SendOutcome.sent →
      handle_member_left g oracle u = [⟨leaveDirectOp lm, SendOutcome.sent⟩]
      ∧ fallbackCount (handle_member_left g oracle u) = 0)
    ∧ (∀ (u : TgUpdate) (cm : ChatMemberUpdated),
      u.chatMember = some cm → u.effectiveChatId = some g →
      isLeaveTransition cm.oldStatus cm.newStatus = true → cm.user.isBot = false →
      oracle (leaveDirectOp cm.user) = SendOutcome.sent →
      memberTransitionPart g oracle u = [⟨leaveDirectOp cm.user, SendOutcome.sent⟩]
      ∧ fallbackCount (memberTransitionPart g oracle u) = 0) := by
  constructor
  · intro u m lm hc hm hl hb hs
    have hrun := handle_member_left_run g oracle u m lm hc hm hl hb
    rw [if_pos hs, hs] at hrun
    refine ⟨hrun, ?_⟩
    rw [hrun]
    simp [fallbackCount, isFallback, leaveDirectOp, List.countP_cons]
  · intro u cm hcm hc ht hb hs
    have hrun := memberTransitionPart_run g oracle u cm hcm hc ht hb
    rw [if_pos hs, hs] at hrun
    refine ⟨hrun, ?_⟩
    rw [hrun]
    simp [fallbackCount, isFallback, leaveDirectOp, List.countP_cons]

/-- C4 witness: Alice leaves, the direct send succeeds; no fallback on
either channel path. -/
theorem c4_witness :
    fallbackCount (handle_member_left monitoredGroup sentOracle
      (mkStatusLeave monitoredGroup alice)) = 0
    ∧ fallbackCount (memberTransitionPart monitoredGroup sentOracle
      (mkTransLeave monitoredGroup alice)) = 0 :=
  ⟨((c4_sent_direct_no_fallback monitoredGroup sentOracle).1
      (mkStatusLeave monitoredGroup alice) ⟨some alice, [], false⟩ alice
      rfl rfl rfl rfl rfl).2,
   ((c4_sent_direct_no_fallback monitoredGroup sentOracle).2
      (mkTransLeave monitoredGroup alice)
      ⟨ChatMemberStatus.member, ChatMemberStatus.left, alice⟩
      rfl rfl rfl rfl rfl).2⟩

/-- C5: events whose subject is a bot account produce no outbound send:
a bot departing via left-chat-member yields no attempt, a bot in the
new-members list is skipped by the welcome loop contributing no attempt,
and a bot transition yields no attempt from the transition logic. -/
theorem c5_bots_never_contacted (g : Int) (oracle : SendOracle) :
    (∀ (u : TgUpdate) (m : TgMessage) (lm : TgUser),
      u.effectiveChatId = some g → u.message = some m → m.leftChatMember = some lm →
      lm.isBot = true → handle_member_left g oracle u = [])
    ∧ (∀ (nm : TgUser) (rest : List TgUser), nm.isBot = true →
        welcomeLoop g oracle (nm :: rest) = welcomeLoop g oracle rest)
    ∧ (∀ (u : TgUpdate) (cm : ChatMemberUpdated),
        u.chatMember = some cm → cm.user.isBot = true →
        memberTransitionPart g oracle u = []) := by
  refine ⟨?_, ?_, ?_⟩
  · intro u m lm hc hm hl hb
    simp [handle_member_left, hc, hm, hl, hb]
  · intro nm rest hb
    simp [welcomeLoop, hb]
  · intro u cm hcm hb
    exact memberTransitionPart_bot g oracle u cm hcm hb

/-- C5 witness: the bot account Robo leaving, joining and transitioning out
produces no attempt on any path. -/
theorem c5_witness :
    handle_member_left monitoredGroup sentOracle (mkStatusLeave monitoredGroup robo) = []
    ∧ welcomeLoop monitoredGroup sentOracle [robo]
      = welcomeLoop monitoredGroup sentOracle []
    ∧ memberTransitionPart monitoredGroup sentOracle (mkTransLeave monitoredGroup robo) = [] :=
  ⟨(c5_bots_never_contacted monitoredGroup sentOracle).1
      (mkStatusLeave monitoredGroup robo) ⟨some robo, [], false⟩ robo rfl rfl rfl rfl,
   (c5_bots_never_contacted monitoredGroup sentOracle).2.1 robo [] rfl,
   (c5_bots_never_contacted monitoredGroup sentOracle).2.2
      (mkTransLeave monitoredGroup robo)
      ⟨ChatMemberStatus.member, ChatMemberStatus.left, robo⟩ rfl rfl⟩

/-- C6: an update whose conversation is not the monitored group is discarded
by every membership handler path with no outbound attempt, and processing
mutates no program state. -/
theorem c6_foreign_chat_inert (g : Int) (oracle : SendOracle) (u : TgUpdate) (cid : Int)
    (hc : u.effectiveChatId = some cid) (hne : cid ≠ g) :
    handle_member_left g oracle u = []
    ∧ handle_new_member g oracle u = []
    ∧ memberTransitionPart g oracle u = []
    ∧ ∀ s : BotState, (processUpdate s oracle u).1 = s := by
  refine ⟨?_, ?_, ?_, fun s => rfl⟩
  · simp [handle_member_left, hc, hne]
  · simp [handle_new_member, hc, hne]
  · unfold memberTransitionPart
    rcases hcm : u.chatMember with _ | cm
    · rfl
    · rw [hc]
      simp [hne]

/-- C6 witness: Alice's departure message arriving for an unmonitored
conversation produces nothing. -/
theorem c6_witness :
    handle_member_left monitoredGroup sentOracle (mkStatusLeave (-999) alice) = []
    ∧ handle_new_member monitoredGroup sentOracle (mkStatusLeave (-999) alice) = [] :=
  ⟨(c6_foreign_chat_inert monitoredGroup sentOracle (mkStatusLeave (-999) alice) (-999)
      rfl (by decide)).1,
   (c6_foreign_chat_inert monitoredGroup sentOracle (mkStatusLeave (-999) alice) (-999)
      rfl (by decide)).2.1⟩

/-- C7: the transition logic emits a dispatch only when the old status is in
MEMBER/ADMINISTRATOR/OWNER and the new status in LEFT/BANNED
(isLeaveTransition) for a non-bot user in the monitored group; when the
transition is not of that form (e.g. the lateral Member to Administrator)
or the user is a bot it emits nothing; and on a qualifying transition it
emits exactly one dispatch sequence. -/
theorem c7_transition_gate (g : Int) (oracle : SendOracle) (u : TgUpdate)
    (cm : ChatMemberUpdated) (hcm : u.chatMember = some cm) :
    (memberTransitionPart g oracle u ≠ [] →
       u.effectiveChatId = some g
       ∧ isLeaveTransition cm.oldStatus cm.newStatus = true
       ∧ cm.user.isBot = false)
    ∧ (isLeaveTransition cm.oldStatus cm.newStatus = false →
        memberTransitionPart g oracle u = [])
    ∧ (cm.user.isBot = true → memberTransitionPart g oracle u = [])
    ∧ (u.effectiveChatId = some g → isLeaveTransition cm.oldStatus cm.newStatus = true →
        cm.user.isBot = false →
        dispatchSequences (memberTransitionPart g oracle u) = 1) := by
  refine ⟨?_, ?_, ?_, ?_⟩
  · intro hne
    rcases hec : u.effectiveChatId with _ | cid
    · exact absurd (by simp [memberTransitionPart, hcm, hec]) hne
    · by_cases hg : cid = g
      · cases ht : isLeaveTransition cm.oldStatus cm.newStatus
        · exact absurd (by simp [memberTransitionPart, hcm, hec, hg, ht]) hne
        · cases hb : cm.user.isBot
          · exact ⟨by rw [hg], rfl, rfl⟩
          · exact absurd (memberTransitionPart_bot g oracle u cm hcm hb) hne
      · exact absurd (by simp [memberTransitionPart, hcm, hec, hg]) hne
  · intro ht
    rcases hec : u.effectiveChatId with _ | cid
    · simp [memberTransitionPart, hcm, hec]
    · by_cases hg : cid = g <;> simp [memberTransitionPart, hcm, hec, hg, ht]
  · intro hb
    exact memberTransitionPart_bot g oracle u cm hcm hb
  · intro hec ht hb
    rw [memberTransitionPart_run g oracle u cm hcm hec ht hb]
    split
    · exact (dispatchSequences_run cm.user g _ SendOutcome.sent).1
    · exact (dispatchSequences_run cm.user g _ _).2

/-- C7 witness: Alice's Member-to-Left transition yields exactly one
dispatch sequence; a lateral Member-to-Administrator transition does not
qualify, so it yields none. -/
theorem c7_witness :
    dispatchSequences (memberTransitionPart monitoredGroup sentOracle
      (mkTransLeave monitoredGroup alice)) = 1
    ∧ memberTransitionPart monitoredGroup sentOracle
        ⟨some monitoredGroup, none, none,
         some ⟨ChatMemberStatus.member, ChatMemberStatus.administrator, alice⟩, none⟩ = [] :=
  ⟨(c7_transition_gate monitoredGroup sentOracle (mkTransLeave monitoredGroup alice)
      ⟨ChatMemberStatus.member, ChatMemberStatus.left, alice⟩ rfl).2.2.2 rfl rfl rfl,
   (c7_transition_gate monitoredGroup sentOracle
      ⟨some monitoredGroup, none, none,
       some ⟨ChatMemberStatus.member, ChatMemberStatus.administrator, alice⟩, none⟩
      ⟨ChatMemberStatus.member, ChatMemberStatus.administrator, alice⟩ rfl).2.1 rfl⟩

/-- C8: enrollment is monotone in the degenerate sense the code realises:
no handler assigns any attribute or other program state, so any
enrollment reading hasDirect of the bot state that is true before an
update stream is still true after it — no event ever resets it. -/
theorem c8_enrollment_monotone (s : BotState) (oracle : SendOracle)
    (us : List TgUpdate) (hasDirect : BotState → Int → Bool) (uid : Int)
    (h : hasDirect s uid = true) :
    hasDirect (runBot s oracle us).1 uid = true := by
  rw [runBot_fst]
  exact h

/-- C8 witness: a reading that marks user 1 enrolled stays true across a
processed departure update. -/
theorem c8_witness :
    enrolledAll (runBot botState0 sentOracle [mkStatusLeave monitoredGroup alice]).1 1 = true :=
  c8_enrollment_monotone botState0 sentOracle [mkStatusLeave monitoredGroup alice]
    enrolledAll 1 rfl

/-- C9: the code evaluated at the failing input: setup_handlers raises
AttributeError on the name handle_chat_member_update, so startup aborts and
the shipped program processes no update at all — the setup-plus-processing
pipeline does abort the update stream, contradicting the claim. -/
theorem c9_setup_aborts :
    setup_handlers.2 = some "handle_chat_member_update"
    ∧ systemRun monitoredGroup sentOracle
        [mkStatusLeave monitoredGroup alice,
         mkStatusLeave monitoredGroup robo,
         mkTransLeave monitoredGroup alice] = [] :=
  ⟨rfl, rfl⟩

/-- C10: setup_handlers references handle_chat_member_update, which is not
among the methods defined on TelegramLeaveBot, so the fifth add_handler
call raises AttributeError after the first four registrations succeed; no
registration for the chat-member transition channel ever exists, and a
callback-query update (the only shape routed into handle_callback_query,
which carries no chat_member) makes the embedded transition logic emit
nothing. -/
theorem c10_missing_method :
    (telegramLeaveBotMethodNames.contains "handle_chat_member_update") = false
    ∧ setup_handlers =
        ([⟨HandlerKind.newMembersMsg, "handle_new_member"⟩,
          ⟨HandlerKind.startCommand, "handle_start_command"⟩,
          ⟨HandlerKind.callbackQuery, "handle_callback_query"⟩,
          ⟨HandlerKind.leftMemberMsg, "handle_member_left"⟩],
         some "handle_chat_member_update")
    ∧ (setup_handlers.1.all fun r => r.kind != HandlerKind.chatMemberUpdate) = true
    ∧ memberTransitionPart monitoredGroup sentOracle
        ⟨some monitoredGroup, none, none, none, some ⟨some "start_chat", alice⟩⟩ = [] :=
  ⟨rfl, rfl, rfl, rfl⟩

end LeaveBot
